import Mathlib

/-!
Verification of the OpenERP start script (`openerp.py`) against its
natural-language specification.

The script is a thin CLI wrapper around an external daemon-supervision
utility (`start-stop-daemon`).  We embed it shallowly:

* The external world (the supervision utility, the filesystem, the current
  working directory) is a record of functions `World`.  `World.run` models
  `subprocess.Popen(shlex.split(cmd), stdout=PIPE, stderr=PIPE)` followed by
  `communicate()`: it maps the constructed command line to the process
  return code (an `Int`: Python's `Popen.returncode` is negative when the
  child is killed by a signal) together with the captured output streams.
* `os.path.exists` becomes `World.pathExists`; `open(path)` + `readline()`
  becomes `World.readFile`, with `none` modelling a missing/unreadable file
  (Python raises `IOError` there, which `main` does not catch).
* Each operation returns its Python return value together with the trace of
  spawned external commands and the message passed to `exit(code, message)`
  (if any), so that "no external process is spawned" and the logged failure
  messages are observable in the model.
-/

namespace Openerp

/-- Result of spawning an external command: the process return code as Python
`Popen.returncode` reports it (negative when the child died from a signal),
and the captured stdout/stderr from `communicate()`. -/
structure ProcResult where
  returncode : Int
  output : String
  error : String
deriving Repr, DecidableEq

/-- The external world the script interacts with: the supervision mechanism
(`run`), `os.path.exists` (`pathExists`), reading a file's contents
(`readFile`, `none` when `open` would raise `IOError`), and `os.getcwd()`
(`cwd`). -/
structure World where
  run : String → ProcResult
  pathExists : String → Bool
  readFile : String → Option String
  cwd : String

/-- Line 63-64: `START_COMMAND` template, instantiated with
`%(script)s`, `%(dir)s`, `%(pidfile)s`. -/
def startCommandLine (script dir pidfile : String) : String :=
  "start-stop-daemon --start --quiet --startas " ++ script ++
  " --make-pidfile --background --chdir " ++ dir ++ " --pidfile " ++ pidfile

/-- Line 65: `STOP_COMMAND` template, instantiated with `%(pidfile)s`. -/
def stopCommandLine (pidfile : String) : String :=
  "start-stop-daemon --stop --quiet --pidfile " ++ pidfile ++ " -R TERM/15/KILL/5"

/-- Result of the `start`/`stop` functions: the Python return value (`code`),
the message passed to `exit(code, message)` (`none` when the function took
the `return 0` path and logged nothing), and the commands spawned. -/
structure OpResult where
  code : Int
  message : Option String
  spawned : List String
deriving Repr, DecidableEq

/-- Lines 70-89: `start(directory, program, pidfile)`.  Builds the start
command, spawns it, and interprets `process.returncode`: `== 1` means the
process is already running (returns the code, 1); `> 1` is an error whose
message captures `str(output) + str(error)`; anything else takes `return 0`. -/
def start (directory program pidfile : String) (w : World) : OpResult :=
  let command := startCommandLine program directory pidfile
  let process := w.run command
  if process.returncode = 1 then
    { code := process.returncode,
      message := some "The process is already running !",
      spawned := [command] }
  else if process.returncode > 1 then
    { code := process.returncode,
      message := some ("An error occured, here is the output :\n " ++
        process.output ++ process.error),
      spawned := [command] }
  else
    { code := 0, message := none, spawned := [command] }

/-- Lines 91-110: `stop(pidfile)`.  Same return-code interpretation as
`start`, with the "not running" message on code 1. -/
def stop (pidfile : String) (w : World) : OpResult :=
  let command := stopCommandLine pidfile
  let process := w.run command
  if process.returncode = 1 then
    { code := process.returncode,
      message := some "The process is not running !",
      spawned := [command] }
  else if process.returncode > 1 then
    { code := process.returncode,
      message := some ("An error occured, here is the output : \n " ++
        process.output ++ process.error),
      spawned := [command] }
  else
    { code := 0, message := none, spawned := [command] }

/-- The spec's tri-state Operation Outcome, produced by interpreting the
external mechanism's numeric return code (spec section 3). -/
inductive Outcome
  | success
  | alreadyInDesiredState
  | failure
deriving Repr, DecidableEq

/-- The return-code interpretation both `start` and `stop` apply (the branch
structure of lines 82-87 / 103-108): code 1 is the already-in-desired-state
no-op, codes greater than 1 are failures, everything else (0 and all
negative codes) is success. -/
def interpretCode (r : Int) : Outcome :=
  if r = 1 then .alreadyInDesiredState
  else if r > 1 then .failure
  else .success

/-- Whether a path string starts with the separator `/` (used to model
`os.path.join` absolute-component handling). -/
def startsWithSlash (s : String) : Bool :=
  match s.data with
  | [] => false
  | c :: _ => c == '/'

/-- Whether a path string ends with the separator `/`. -/
def endsWithSlash (s : String) : Bool :=
  match s.data.getLast? with
  | none => false
  | some c => c == '/'

/-- POSIX `os.path.join` for two components, as used on lines 144-148 and
177: an absolute second component replaces the first. -/
def osPathJoin (a b : String) : String :=
  if startsWithSlash b then b
  else if a = "" then b
  else if endsWithSlash a then a ++ b
  else a ++ "/" ++ b

/-- The options `optparse` extracts from `argv[1:]` (lines 128-131), with
their default values.  `user` is registered (line 130) but never read
afterwards; `debug` only raises the logging verbosity (line 135-136), which
is not an observable of this model. -/
structure Options where
  server_dir : String := "server"
  webserver_dir : String := "web"
  user : String := "openerp"
  debug : Bool := false
deriving Repr, DecidableEq

/-- Line 144: `os.path.join(options.server_dir, 'bin', 'openerp-server.py')`. -/
def serverProgram (o : Options) : String :=
  osPathJoin (osPathJoin o.server_dir "bin") "openerp-server.py"

/-- Line 145: `os.path.join(options.server_dir, 'bin', 'server.pid')`. -/
def serverPidfile (o : Options) : String :=
  osPathJoin (osPathJoin o.server_dir "bin") "server.pid"

/-- Line 147: `os.path.join(options.webserver_dir, 'openerp-web.py')`. -/
def webProgram (o : Options) : String :=
  osPathJoin o.webserver_dir "openerp-web.py"

/-- Line 148: `os.path.join(options.webserver_dir, 'webserver.pid')`. -/
def webPidfile (o : Options) : String :=
  osPathJoin o.webserver_dir "webserver.pid"

/-- Characters of a string up to (excluding) the first newline. -/
def firstLineChars : List Char → List Char
  | [] => []
  | c :: cs => if c = '\n' then [] else c :: firstLineChars cs

/-- Python `file.readline()` on the whole file contents: the text up to the
first newline (the trailing newline itself is immediately removed again by
the `.strip()` on line 176, so we drop it here). -/
def firstLine (s : String) : String :=
  ⟨firstLineChars s.data⟩

/-- Python `str.strip()`: remove leading and trailing whitespace. -/
def pyStrip (s : String) : String :=
  ⟨((s.data.dropWhile Char.isWhitespace).reverse.dropWhile Char.isWhitespace).reverse⟩

/-- The status report logged by the `status` branch (lines 178-180). -/
inductive StatusReport
  | running
  | stopped
deriving Repr, DecidableEq

/-- How an invocation of `main` terminates: with a return value passed to
`sys.exit` (`exitCode`), or by the `IOError` raised by `open(pidfile)` on
line 175 propagating uncaught out of `main` (the script then aborts with a
traceback instead of reporting a status). -/
inductive MainResult
  | exitCode (code : Int)
  | uncaughtIOError (filename : String)
deriving Repr, DecidableEq

/-- Everything observable about one invocation of `main`: how it terminated,
which external commands it spawned (in order), and the running/stopped
report of the `status` branch, if one was logged. -/
structure MainOutput where
  result : MainResult
  spawned : List String
  report : Option StatusReport
deriving Repr, DecidableEq

/-- Lines 152-181 of `main`: everything after the target has been resolved to
a `program` and `pidfile` path.  Checks the program file exists, then
dispatches on the command.  `restart` (lines 167-172) runs `stop` then,
unconditionally, `start`, and fails (exit code 1) when either sub-call
returned nonzero.  `status` (lines 174-181) opens the PID file - the
`IOError` on a missing/unreadable file is not caught - reads the first line,
strips it, and checks `os.path.join('/proc', pid)` for existence.  The final
branch is unreachable (the guard on line 138 admits only the four commands);
Python would fall off the end of `main`, returning `None`, which
`sys.exit` maps to status 0. -/
def runCommand (command program pidfile : String) (w : World) : MainOutput :=
  if w.pathExists program = false then
    { result := .exitCode 1, spawned := [], report := none }
  else if command = "start" then
    let res := start w.cwd program pidfile w
    { result := .exitCode res.code, spawned := res.spawned, report := none }
  else if command = "stop" then
    let res := stop pidfile w
    { result := .exitCode res.code, spawned := res.spawned, report := none }
  else if command = "restart" then
    let resStop := stop pidfile w
    let resStart := start w.cwd program pidfile w
    if resStop.code ≠ 0 ∨ resStart.code ≠ 0 then
      { result := .exitCode 1, spawned := resStop.spawned ++ resStart.spawned,
        report := none }
    else
      { result := .exitCode 0, spawned := resStop.spawned ++ resStart.spawned,
        report := none }
  else if command = "status" then
    match w.readFile pidfile with
    | none => { result := .uncaughtIOError pidfile, spawned := [], report := none }
    | some content =>
      let pid := pyStrip (firstLine content)
      if w.pathExists (osPathJoin "/proc" pid) then
        { result := .exitCode 0, spawned := [], report := some .running }
      else
        { result := .exitCode 0, spawned := [], report := some .stopped }
  else
    { result := .exitCode 0, spawned := [], report := none }

/-- Lines 121-181: `main(argv)`, after `optparse` has split `argv[1:]` into
`options` and the positional `args`.  Line 138 rejects fewer than two
positional arguments, an unknown command, or an unknown target with exit
code 1.  Lines 143-150 resolve the target to its program and PID-file paths
(the `else` on line 149-150 is unreachable once the guard has passed). -/
def main (o : Options) (args : List String) (w : World) : MainOutput :=
  if args.length < 2 ∨
      args.getD 0 "" ∉ (["start", "stop", "restart", "status"] : List String) ∨
      args.getD 1 "" ∉ (["server", "webserver"] : List String) then
    { result := .exitCode 1, spawned := [], report := none }
  else
    let command := args.getD 0 ""
    let target := args.getD 1 ""
    if target = "server" then
      runCommand command (serverProgram o) (serverPidfile o) w
    else if target = "webserver" then
      runCommand command (webProgram o) (webPidfile o) w
    else
      { result := .exitCode 1, spawned := [], report := none }

/-- Convenience abbreviation for the program path lines 143-148 of `main`
resolve for a given target. -/
def resolvedProgram (o : Options) (target : String) : String :=
  if target = "server" then serverProgram o else webProgram o

/-- Convenience abbreviation for the PID-file path lines 143-148 of `main`
resolve for a given target. -/
def resolvedPidfile (o : Options) (target : String) : String :=
  if target = "server" then serverPidfile o else webPidfile o

/-- A world whose supervision mechanism always returns code `r` with output
`out` and error `err`, every path exists, and no file is readable. -/
def retWorld (r : Int) : World :=
  { run := fun _ => { returncode := r, output := "out", error := "err" },
    pathExists := fun _ => true, readFile := fun _ => none, cwd := "/srv" }

/-- A world whose supervision mechanism dies from a signal: Python's
`Popen.returncode` is then the negated signal number, here -1 (SIGHUP). -/
def signalWorld : World :=
  { run := fun _ => { returncode := -1, output := "", error := "" },
    pathExists := fun _ => true, readFile := fun _ => none, cwd := "/srv" }

/-- A world for `status` tests: the default server program exists, the PID
file reads ` 12345\n`, and `/proc/12345` exists. -/
def pidWorld : World :=
  { run := fun _ => { returncode := 0, output := "", error := "" },
    pathExists := fun s => s == "server/bin/openerp-server.py" || s == "/proc/12345",
    readFile := fun s => if s == "server/bin/server.pid" then some " 12345\n" else none,
    cwd := "/srv" }

/-- A world in which no path exists on disk. -/
def noFsWorld : World :=
  { run := fun _ => { returncode := 0, output := "", error := "" },
    pathExists := fun _ => false, readFile := fun _ => none, cwd := "/srv" }

/-- Claim C2 formalised exactly as stated: for EVERY return code of the
external mechanism, 0 yields success, 1 yields the already-running no-op
with exit code 1, and ANY other code is passed through as the exit code
with the combined output captured in the message.  (Refuted below: negative
codes take the `else: return 0` branch of lines 86-87.) -/
def startClaimAsStated : Prop :=
  ∀ (w : World) (dir prog pf : String),
    ((w.run (startCommandLine prog dir pf)).returncode = 0 →
      (start dir prog pf w).code = 0 ∧ (start dir prog pf w).message = none) ∧
    ((w.run (startCommandLine prog dir pf)).returncode = 1 →
      (start dir prog pf w).code = 1 ∧
      (start dir prog pf w).message = some "The process is already running !") ∧
    ((w.run (startCommandLine prog dir pf)).returncode ≠ 0 →
     (w.run (startCommandLine prog dir pf)).returncode ≠ 1 →
      (start dir prog pf w).code = (w.run (startCommandLine prog dir pf)).returncode ∧
      (start dir prog pf w).message =
        some ("An error occured, here is the output :\n " ++
          (w.run (startCommandLine prog dir pf)).output ++
          (w.run (startCommandLine prog dir pf)).error))

/-- Claim C3 formalised exactly as stated, the `stop` counterpart of
`startClaimAsStated`. -/
def stopClaimAsStated : Prop :=
  ∀ (w : World) (pf : String),
    ((w.run (stopCommandLine pf)).returncode = 0 →
      (stop pf w).code = 0 ∧ (stop pf w).message = none) ∧
    ((w.run (stopCommandLine pf)).returncode = 1 →
      (stop pf w).code = 1 ∧
      (stop pf w).message = some "The process is not running !") ∧
    ((w.run (stopCommandLine pf)).returncode ≠ 0 →
     (w.run (stopCommandLine pf)).returncode ≠ 1 →
      (stop pf w).code = (w.run (stopCommandLine pf)).returncode ∧
      (stop pf w).message =
        some ("An error occured, here is the output : \n " ++
          (w.run (stopCommandLine pf)).output ++ (w.run (stopCommandLine pf)).error))

/-- Joining a component that is not absolute onto `/proc` concatenates with a
separator, as `os.path.join('/proc', pid)` does on line 177. -/
lemma osPathJoin_proc (p : String) (h : startsWithSlash p = false) :
    osPathJoin "/proc" p = "/proc/" ++ p := by
  unfold osPathJoin
  rw [h]
  norm_num
  rw [if_neg (by decide), if_neg (by decide)]
  have : ("/proc" ++ "/" : String) = "/proc/" := by decide
  rw [this]

/-- One call to `stop` spawns exactly the stop command, in every branch. -/
lemma stop_spawned (pf : String) (w : World) :
    (stop pf w).spawned = [stopCommandLine pf] := by
  simp only [stop]
  split
  · rfl
  · split <;> rfl

/-- One call to `start` spawns exactly the start command, in every branch. -/
lemma start_spawned (d p f : String) (w : World) :
    (start d p f w).spawned = [startCommandLine p d f] := by
  simp only [start]
  split
  · rfl
  · split <;> rfl

/-- With a recognised command and target, `main` passes the guard on line 138
and dispatches to the resolved program and PID-file paths. -/
lemma main_dispatch (o : Options) (w : World) (command target : String)
    (hc : command ∈ (["start", "stop", "restart", "status"] : List String))
    (ht : target = "server" ∨ target = "webserver") :
    main o [command, target] w =
      runCommand command (resolvedProgram o target) (resolvedPidfile o target) w := by
  rcases ht with h | h <;> subst h
  · have hg : ¬([command, "server"].length < 2 ∨
        [command, "server"].getD 0 "" ∉ (["start", "stop", "restart", "status"] : List String) ∨
        [command, "server"].getD 1 "" ∉ (["server", "webserver"] : List String)) := by
      intro hcon
      rcases hcon with h | h | h
      · simp at h
      · exact h hc
      · exact h (List.mem_cons_self _ _)
    unfold main
    rw [if_neg hg]
    rfl
  · have hg : ¬([command, "webserver"].length < 2 ∨
        [command, "webserver"].getD 0 "" ∉ (["start", "stop", "restart", "status"] : List String) ∨
        [command, "webserver"].getD 1 "" ∉ (["server", "webserver"] : List String)) := by
      intro hcon
      rcases hcon with h | h | h
      · simp at h
      · exact h hc
      · exact h (List.mem_cons_of_mem _ (List.mem_cons_self _ _))
    unfold main
    rw [if_neg hg]
    rfl

/-- C1: `restart` invokes `stop` and then unconditionally invokes `start`
(both external commands are spawned, stop first, whatever code `stop`
produced), and the composite result is exit code 1 exactly when at least one
of the two sub-operations returned a nonzero code, exit code 0 otherwise. -/
theorem C1_restart_composition (o : Options) (w : World) (target : String)
    (ht : target = "server" ∨ target = "webserver")
    (hprog : w.pathExists (resolvedProgram o target) = true) :
    (main o ["restart", target] w).spawned =
      [stopCommandLine (resolvedPidfile o target),
       startCommandLine (resolvedProgram o target) w.cwd (resolvedPidfile o target)] ∧
    ((main o ["restart", target] w).result = .exitCode 1 ↔
      ((stop (resolvedPidfile o target) w).code ≠ 0 ∨
       (start w.cwd (resolvedProgram o target) (resolvedPidfile o target) w).code ≠ 0)) ∧
    (((stop (resolvedPidfile o target) w).code = 0 ∧
      (start w.cwd (resolvedProgram o target) (resolvedPidfile o target) w).code = 0) →
      (main o ["restart", target] w).result = .exitCode 0) := by
  rw [main_dispatch o w "restart" target (by decide) ht]
  unfold runCommand
  rw [hprog]
  rw [if_neg (by simp), if_neg (by decide), if_neg (by decide), if_pos rfl]
  simp only []
  by_cases hcase : (stop (resolvedPidfile o target) w).code ≠ 0 ∨
      (start w.cwd (resolvedProgram o target) (resolvedPidfile o target) w).code ≠ 0
  · rw [if_pos hcase]
    refine ⟨by simp [stop_spawned, start_spawned], by simp [hcase], ?_⟩
    intro hz
    exact absurd hcase (by simp [hz.1, hz.2])
  · rw [if_neg hcase]
    push_neg at hcase
    refine ⟨by simp [stop_spawned, start_spawned], ?_, fun _ => rfl⟩
    constructor
    · intro habs
      simp at habs
    · intro hor
      rcases hor with h | h
      · exact absurd hcase.1 h
      · exact absurd hcase.2 h

/-- C1 witness: with the mechanism returning 0 for both sub-calls on the
default server target, restart spawns stop then start and exits 0. -/
theorem C1_restart_composition_witness :
    (retWorld 0).pathExists (resolvedProgram {} "server") = true ∧
    (main {} ["restart", "server"] (retWorld 0)).result = .exitCode 0 ∧
    (main {} ["restart", "server"] (retWorld 0)).spawned =
      [stopCommandLine (resolvedPidfile {} "server"),
       startCommandLine (resolvedProgram {} "server") (retWorld 0).cwd (resolvedPidfile {} "server")] := by
  have h := C1_restart_composition {} (retWorld 0) "server" (Or.inl rfl) (by decide)
  exact ⟨by decide, h.2.2 ⟨by decide, by decide⟩, h.1⟩

/-- C2 counterexample: the claim fails as stated.  When the supervision
mechanism dies from a signal, `Popen.returncode` is negative (here -1);
the claim then demands Failure with -1 passed through, but lines 82-87 of
`start` treat every code that is neither 1 nor greater than 1 as the
success branch and return 0. -/
theorem C2_counterexample_negative_code : ¬ startClaimAsStated := by
  intro h
  have h3 := ((h signalWorld "/srv" "prog" "pf").2.2 (by decide) (by decide)).1
  revert h3
  decide

/-- C2 (amended): for every external-mechanism return code r, `start`
returns Success (result 0) when r = 0; AlreadyInDesiredState with the
already-running message and exit code 1 when r = 1; Failure for every
r greater than 1, passing r through as the exit code and capturing the
combined stdout/stderr text in the message; and Success (result 0) for
every negative r. -/
theorem C2_start_code_interpretation (w : World) (dir prog pf : String) :
    ((w.run (startCommandLine prog dir pf)).returncode = 0 →
      (start dir prog pf w).code = 0 ∧ (start dir prog pf w).message = none ∧
      interpretCode (w.run (startCommandLine prog dir pf)).returncode = .success) ∧
    ((w.run (startCommandLine prog dir pf)).returncode = 1 →
      (start dir prog pf w).code = 1 ∧
      (start dir prog pf w).message = some "The process is already running !" ∧
      interpretCode (w.run (startCommandLine prog dir pf)).returncode = .alreadyInDesiredState) ∧
    ((w.run (startCommandLine prog dir pf)).returncode > 1 →
      (start dir prog pf w).code = (w.run (startCommandLine prog dir pf)).returncode ∧
      (start dir prog pf w).message =
        some ("An error occured, here is the output :\n " ++
          (w.run (startCommandLine prog dir pf)).output ++
          (w.run (startCommandLine prog dir pf)).error) ∧
      interpretCode (w.run (startCommandLine prog dir pf)).returncode = .failure) ∧
    ((w.run (startCommandLine prog dir pf)).returncode < 0 →
      (start dir prog pf w).code = 0 ∧ (start dir prog pf w).message = none ∧
      interpretCode (w.run (startCommandLine prog dir pf)).returncode = .success) := by
  refine ⟨fun h => ?_, fun h => ?_, fun h => ?_, fun h => ?_⟩
  · simp [start, interpretCode, h]
  · simp [start, interpretCode, h]
  · have h1 : ¬((w.run (startCommandLine prog dir pf)).returncode = 1) := by omega
    simp [start, interpretCode, h, h1]
  · have h1 : ¬((w.run (startCommandLine prog dir pf)).returncode = 1) := by omega
    have h2 : ¬((w.run (startCommandLine prog dir pf)).returncode > 1) := by omega
    simp [start, interpretCode, h1, h2]

/-- C2 witness: on return code 1 the start operation exits 1 with the
already-running message. -/
theorem C2_start_code_interpretation_witness :
    ((retWorld 1).run (startCommandLine "p" "/srv" "f")).returncode = 1 ∧
    (start "/srv" "p" "f" (retWorld 1)).code = 1 ∧
    (start "/srv" "p" "f" (retWorld 1)).message = some "The process is already running !" := by
  have h := (C2_start_code_interpretation (retWorld 1) "/srv" "p" "f").2.1 (by decide)
  exact ⟨by decide, h.1, h.2.1⟩

/-- C3 counterexample: same failure as C2 on the `stop` side.  A negative
return code (signal death, here -1) takes the `return 0` branch of lines
103-108, while the claim as stated demands Failure with -1 passed through. -/
theorem C3_counterexample_negative_code : ¬ stopClaimAsStated := by
  intro h
  have h3 := ((h signalWorld "pf").2.2 (by decide) (by decide)).1
  revert h3
  decide

/-- C3 (amended): for every external-mechanism return code r, `stop` returns
Success (result 0) when r = 0; AlreadyInDesiredState with the not-running
message and exit code 1 when r = 1; Failure for every r greater than 1,
passing r through and capturing the combined stdout/stderr text; and
Success (result 0) for every negative r. -/
theorem C3_stop_code_interpretation (w : World) (pf : String) :
    ((w.run (stopCommandLine pf)).returncode = 0 →
      (stop pf w).code = 0 ∧ (stop pf w).message = none ∧
      interpretCode (w.run (stopCommandLine pf)).returncode = .success) ∧
    ((w.run (stopCommandLine pf)).returncode = 1 →
      (stop pf w).code = 1 ∧
      (stop pf w).message = some "The process is not running !" ∧
      interpretCode (w.run (stopCommandLine pf)).returncode = .alreadyInDesiredState) ∧
    ((w.run (stopCommandLine pf)).returncode > 1 →
      (stop pf w).code = (w.run (stopCommandLine pf)).returncode ∧
      (stop pf w).message =
        some ("An error occured, here is the output : \n " ++
          (w.run (stopCommandLine pf)).output ++ (w.run (stopCommandLine pf)).error) ∧
      interpretCode (w.run (stopCommandLine pf)).returncode = .failure) ∧
    ((w.run (stopCommandLine pf)).returncode < 0 →
      (stop pf w).code = 0 ∧ (stop pf w).message = none ∧
      interpretCode (w.run (stopCommandLine pf)).returncode = .success) := by
  refine ⟨fun h => ?_, fun h => ?_, fun h => ?_, fun h => ?_⟩
  · simp [stop, interpretCode, h]
  · simp [stop, interpretCode, h]
  · have h1 : ¬((w.run (stopCommandLine pf)).returncode = 1) := by omega
    simp [stop, interpretCode, h, h1]
  · have h1 : ¬((w.run (stopCommandLine pf)).returncode = 1) := by omega
    have h2 : ¬((w.run (stopCommandLine pf)).returncode > 1) := by omega
    simp [stop, interpretCode, h1, h2]

/-- C3 witness: on return code 3 the stop operation passes 3 through and
captures the combined output in the message. -/
theorem C3_stop_code_interpretation_witness :
    ((retWorld 3).run (stopCommandLine "f")).returncode = 3 ∧
    (stop "f" (retWorld 3)).code = 3 ∧
    (stop "f" (retWorld 3)).message =
      some "An error occured, here is the output : \n outerr" := by
  have h := (C3_stop_code_interpretation (retWorld 3) "f").2.2.1 (by decide)
  exact ⟨by decide, h.1, h.2.1.trans (by decide)⟩

/-- C4: for every readable PID file, `status` reads only the first line,
strips it to a bare process id p, and reports Running exactly when `/proc/p`
exists and Stopped otherwise, always exiting 0 and spawning no process. -/
theorem C4_status_first_line (o : Options) (w : World) (target : String)
    (ht : target = "server" ∨ target = "webserver")
    (content : String)
    (hprog : w.pathExists (resolvedProgram o target) = true)
    (hread : w.readFile (resolvedPidfile o target) = some content)
    (hbare : startsWithSlash (pyStrip (firstLine content)) = false) :
    ((main o ["status", target] w).report = some .running ↔
      w.pathExists ("/proc/" ++ pyStrip (firstLine content)) = true) ∧
    ((main o ["status", target] w).report = some .stopped ↔
      w.pathExists ("/proc/" ++ pyStrip (firstLine content)) = false) ∧
    (main o ["status", target] w).result = .exitCode 0 ∧
    (main o ["status", target] w).spawned = [] := by
  rw [main_dispatch o w "status" target (by decide) ht]
  unfold runCommand
  rw [hprog]
  rw [if_neg (by simp), if_neg (by decide), if_neg (by decide), if_neg (by decide), if_pos rfl]
  rw [hread]
  simp only []
  rw [osPathJoin_proc _ hbare]
  cases hpe : w.pathExists ("/proc/" ++ pyStrip (firstLine content)) <;> simp

/-- C4 witness: a PID file whose first line strips to `12345` with
`/proc/12345` present reports Running and exits 0. -/
theorem C4_status_first_line_witness :
    (main {} ["status", "server"] pidWorld).report = some .running ∧
    (main {} ["status", "server"] pidWorld).result = .exitCode 0 := by
  have h := C4_status_first_line {} pidWorld "server" (Or.inl rfl) " 12345\n"
    (by decide) (by decide) (by decide)
  exact ⟨h.1.mpr (by decide), h.2.2.1⟩

/-- C5: when the PID file is missing or unreadable, `status` aborts with the
uncaught `IOError` raised by `open` on line 175 - an outcome distinct from
every exit-code path - and in particular never reports Stopped. -/
theorem C5_status_missing_pidfile (o : Options) (w : World) (target : String)
    (ht : target = "server" ∨ target = "webserver")
    (hprog : w.pathExists (resolvedProgram o target) = true)
    (hread : w.readFile (resolvedPidfile o target) = none) :
    main o ["status", target] w =
      { result := .uncaughtIOError (resolvedPidfile o target), spawned := [], report := none } ∧
    (main o ["status", target] w).report ≠ some .stopped := by
  rw [main_dispatch o w "status" target (by decide) ht]
  unfold runCommand
  rw [hprog]
  rw [if_neg (by simp), if_neg (by decide), if_neg (by decide), if_neg (by decide), if_pos rfl]
  rw [hread]
  exact ⟨rfl, by simp⟩

/-- C5 witness: with no readable PID file the status invocation aborts with
the uncaught `IOError` instead of reporting anything. -/
theorem C5_status_missing_pidfile_witness :
    main {} ["status", "server"] (retWorld 0) =
      { result := .uncaughtIOError (resolvedPidfile {} "server"), spawned := [], report := none } :=
  (C5_status_missing_pidfile {} (retWorld 0) "server" (Or.inl rfl) (by decide) rfl).1

/-- C6: for every role and configured base directories, when the resolved
program path does not exist on disk, the invocation exits with code 1 before
any lifecycle operation and spawns no external process. -/
theorem C6_program_not_found (o : Options) (w : World) (command target : String)
    (hc : command ∈ (["start", "stop", "restart", "status"] : List String))
    (ht : target = "server" ∨ target = "webserver")
    (hprog : w.pathExists (resolvedProgram o target) = false) :
    main o [command, target] w = { result := .exitCode 1, spawned := [], report := none } := by
  rw [main_dispatch o w command target hc ht]
  unfold runCommand
  rw [hprog, if_pos rfl]

/-- C6 witness: starting the server when its program file is absent exits 1
and spawns nothing. -/
theorem C6_program_not_found_witness :
    main {} ["start", "server"] noFsWorld =
      { result := .exitCode 1, spawned := [], report := none } :=
  C6_program_not_found {} noFsWorld "start" "server" (by decide) (Or.inl rfl) rfl

/-- C7: any invocation with fewer than two positional arguments, an
unrecognised command, or an unrecognised target exits with code 1 and spawns
no external process (the guard on line 138). -/
theorem C7_invalid_invocation (o : Options) (w : World) (args : List String)
    (h : args.length < 2 ∨
      args.getD 0 "" ∉ (["start", "stop", "restart", "status"] : List String) ∨
      args.getD 1 "" ∉ (["server", "webserver"] : List String)) :
    main o args w = { result := .exitCode 1, spawned := [], report := none } := by
  unfold main
  rw [if_pos h]

/-- C7 witness: `start database` exits 1 and spawns nothing. -/
theorem C7_invalid_invocation_witness :
    main {} ["start", "database"] (retWorld 0) =
      { result := .exitCode 1, spawned := [], report := none } :=
  C7_invalid_invocation {} (retWorld 0) ["start", "database"] (Or.inr (Or.inr (by decide)))

/-- C8: stopping twice in succession - the mechanism returning 0 for the
first call and 1 for the second, per its contract - yields Success (code 0)
then AlreadyInDesiredState (code 1, not-running message); the second call is
never a Failure. -/
theorem C8_stop_twice (pidfile : String) (w1 w2 : World)
    (h1 : (w1.run (stopCommandLine pidfile)).returncode = 0)
    (h2 : (w2.run (stopCommandLine pidfile)).returncode = 1) :
    (stop pidfile w1).code = 0 ∧
    interpretCode (w1.run (stopCommandLine pidfile)).returncode = .success ∧
    (stop pidfile w2).code = 1 ∧
    (stop pidfile w2).message = some "The process is not running !" ∧
    interpretCode (w2.run (stopCommandLine pidfile)).returncode = .alreadyInDesiredState ∧
    interpretCode (w2.run (stopCommandLine pidfile)).returncode ≠ .failure := by
  refine ⟨?_, ?_, ?_, ?_, ?_, ?_⟩ <;>
    simp [stop, interpretCode, h1, h2]

/-- C8 witness: concrete double stop, codes 0 then 1, second never Failure. -/
theorem C8_stop_twice_witness :
    (stop "f" (retWorld 0)).code = 0 ∧
    (stop "f" (retWorld 1)).code = 1 ∧
    interpretCode ((retWorld 1).run (stopCommandLine "f")).returncode ≠ .failure := by
  have h := C8_stop_twice "f" (retWorld 0) (retWorld 1) (by decide) (by decide)
  exact ⟨h.1, h.2.2.1, h.2.2.2.2.2⟩

/-- C9: the value of the `--user` option never influences behaviour: two
invocations identical except for it produce the same termination, the same
spawned commands, and the same status report.  The option is parsed on line
130 and never read afterwards. -/
theorem C9_user_option_no_influence (o : Options) (u₁ u₂ : String)
    (args : List String) (w : World) :
    main { o with user := u₁ } args w = main { o with user := u₂ } args w := rfl

/-- C10: a negative external-mechanism return code (the supervision process
was terminated by a signal) is treated as success by both `start` and
`stop`: only codes equal to 1 or greater than 1 are non-success, so both
functions return 0 and the invocation reports success. -/
theorem C10_negative_code_is_success (w : World) (dir prog pf : String)
    (hs : (w.run (startCommandLine prog dir pf)).returncode < 0)
    (ht : (w.run (stopCommandLine pf)).returncode < 0) :
    (start dir prog pf w).code = 0 ∧
    (start dir prog pf w).message = none ∧
    interpretCode (w.run (startCommandLine prog dir pf)).returncode = .success ∧
    (stop pf w).code = 0 ∧
    (stop pf w).message = none ∧
    interpretCode (w.run (stopCommandLine pf)).returncode = .success := by
  have hs1 : ¬((w.run (startCommandLine prog dir pf)).returncode = 1) := by omega
  have hs2 : ¬((w.run (startCommandLine prog dir pf)).returncode > 1) := by omega
  have ht1 : ¬((w.run (stopCommandLine pf)).returncode = 1) := by omega
  have ht2 : ¬((w.run (stopCommandLine pf)).returncode > 1) := by omega
  refine ⟨?_, ?_, ?_, ?_, ?_, ?_⟩ <;>
    simp [start, stop, interpretCode, hs1, hs2, ht1, ht2]

/-- C10 witness: return code -1 (signal death) makes both operations return
0 with no error message. -/
theorem C10_negative_code_is_success_witness :
    (start "/srv" "p" "f" signalWorld).code = 0 ∧
    (stop "f" signalWorld).code = 0 ∧
    interpretCode (signalWorld.run (stopCommandLine "f")).returncode = .success := by
  have h := C10_negative_code_is_success signalWorld "/srv" "p" "f" (by decide) (by decide)
  exact ⟨h.1, h.2.2.2.1, h.2.2.2.2.2⟩

end Openerp
